import Mathlib

/-!
Verification development for the VideoHub repository (Express/MongoDB backend,
two variants: `src/server/index.js` and `src/api/index.js`, plus the admin
patch script `src/patch_admin_users.js`).

The MongoDB collections `users`, `accounts`, `userRoles`, `videos` are embedded
as lists of records.  The `userId` and `accountId` fields of a `userRoles`
document are written sometimes as Mongo `ObjectId`s and sometimes as plain
JavaScript strings, and a MongoDB equality query never matches an `ObjectId`
against a string; the model therefore distinguishes the two with the `IdVal`
type.  A `userRoles` document may carry `accountId: null` (the global owner
sentinel), modelled as `none`.  Handlers become pure functions
from a `DB` to a `DB` paired with the response outcome; a thrown JavaScript
exception that is caught by the handler's catch-all (HTTP 500) is modelled by
`Except` with error kind `internal`.  The YouTube upload (Publication Adapter)
is a function parameter `pub : Video → Except String String` returning the
YouTube video id or the thrown error message.
-/

namespace VideoHub

/-- A document of the `users` collection.  `mongoId` is the Mongo `_id`,
`googleId` the optional Google OAuth subject id. -/
structure User where
  mongoId : String
  googleId : Option String
  email : String
  role : String
  authType : Option String
deriving DecidableEq, Repr

/-- A document of the `accounts` collection. -/
structure Account where
  id : String
  name : String
  ownerId : String
  youtubeAuthorizedBy : Option String
  youtubeAccessToken : Option String
  youtubeRefreshToken : Option String
  youtubeChannelId : Option String
deriving DecidableEq, Repr

/-- A value stored in a `userId` or `accountId` field of `userRoles`: either a
Mongo `ObjectId` (written by `insertedId`, `account._id`, `new ObjectId(...)`
or a raw `_id`) or a plain JavaScript string (a JWT user id, a `googleId`, an
`_id.toString()`, or a raw route parameter).  A MongoDB equality test matches
only values of the same kind. -/
inductive IdVal
  | oid (s : String)
  | str (s : String)
deriving DecidableEq, Repr

/-- A document of the `userRoles` collection.  `accountId = none` is the
global-owner sentinel (`accountId: null` in the source). -/
structure UserRole where
  userId : IdVal
  accountId : Option IdVal
  role : String
  isGlobalAdmin : Bool
deriving DecidableEq, Repr

/-- A document of the `videos` collection (the fields the claims touch). -/
structure Video where
  id : String
  title : String
  accountId : String
  status : String
  adminNotes : Option String
  reviewedBy : Option String
  youtubeUploadStatus : Option String
  publishError : Option String
  youtubeVideoId : Option String
  publishedBy : Option String
deriving DecidableEq, Repr

/-- The database: the four collections. -/
structure DB where
  users : List User
  accounts : List Account
  userRoles : List UserRole
  videos : List Video
deriving DecidableEq, Repr

/-- Response outcomes of the handlers: HTTP 403 access denials, 404, 400,
and the catch-all 500 branch. -/
inductive ErrKind
  | accessDenied
  | notFound
  | badRequest
  | internal
deriving DecidableEq, Repr

/-- The canonical user identifier used throughout the source:
`user.googleId || user._id.toString()`. -/
def canonicalUserId (u : User) : String :=
  u.googleId.getD u.mongoId

/-- User lookup by the JWT `userId`.  The source queries `googleId` for Google
users and `_id` for email users; since email users carry no `googleId` and the
JWT of a Google user holds exactly the `googleId`, both query shapes coincide
with matching on the canonical id. -/
def lookupUser (ident : String) (db : DB) : Option User :=
  db.users.find? (fun u => canonicalUserId u == ident)

/-- `updateOne` semantics: update the first matching element of a list. -/
def updateFirst (p : α → Bool) (f : α → α) : List α → List α
  | [] => []
  | x :: xs => if p x then f x :: xs else x :: updateFirst p f xs

/-- `deleteOne` semantics: remove the first matching element of a list. -/
def removeFirst (p : α → Bool) : List α → List α
  | [] => []
  | x :: xs => if p x then xs else x :: removeFirst p xs

/-- `db.collection('videos').updateOne({ _id: vid }, { $set: ... })`. -/
def updateVideo (vid : String) (f : Video → Video) (db : DB) : DB :=
  { db with videos := updateFirst (fun v => v.id == vid) f db.videos }

/-- The stored status of the video with the given id, if present. -/
def videoStatus (db : DB) (vid : String) : Option String :=
  (db.videos.find? (fun v => v.id == vid)).map (fun v => v.status)

/-- The stored `youtubeUploadStatus` sub-flag of the video, if present. -/
def videoUploadStatus (db : DB) (vid : String) : Option (Option String) :=
  (db.videos.find? (fun v => v.id == vid)).map (fun v => v.youtubeUploadStatus)

/-- The stored `publishError` of the video, if present. -/
def videoPublishError (db : DB) (vid : String) : Option (Option String) :=
  (db.videos.find? (fun v => v.id == vid)).map (fun v => v.publishError)

/-! ## Video review (status update)

`PATCH /videos/:videoId/status` in `src/server/index.js` (lines 903-968) and
`PATCH /api/videos/:videoId/status` in `src/api/index.js` (lines 702-726).
Neither handler consults `userRoles` or the caller's role: any authenticated
identity reaches the update.  The server variant additionally attempts the
YouTube upload when the requested status is `approved`. -/

/-- `src/server/index.js` lines 903-968.  Returns the new database and the
number of Publication Adapter invocations.  The handler always answers the
caller with HTTP 200 (`Video status updated successfully`); it has no
authorization branch. -/
def serverReviewVideo (pub : Video → Except String String)
    (identity vid status notes : String) (db : DB) : DB × Nat :=
  if status = "approved" then
    match db.videos.find? (fun v => v.id == vid) with
    | some v =>
      match db.accounts.find? (fun a => a.id == v.accountId) with
      | some acct =>
        if acct.youtubeAccessToken.isSome && acct.youtubeRefreshToken.isSome then
          match pub v with
          | .ok yid =>
            (updateVideo vid (fun w => { w with
                status := "published"
                adminNotes := some (notes ++ " Video successfully uploaded to YouTube!")
                reviewedBy := some identity
                youtubeVideoId := some yid
                youtubeUploadStatus := some "completed" }) db, 1)
          | .error e =>
            (updateVideo vid (fun w => { w with
                status := "publish_failed"
                adminNotes := some (notes ++ " YouTube publishing failed: " ++ e)
                reviewedBy := some identity
                youtubeUploadStatus := some "failed" }) db, 1)
        else
          (updateVideo vid (fun w => { w with
              status := "approved"
              adminNotes := some (notes ++ " Video approved but YouTube upload requires OAuth authorization.")
              reviewedBy := some identity
              youtubeUploadStatus := some "pending_oauth" }) db, 0)
      | none =>
        -- `account && account.youtubeAccessToken && ...` is falsy: pending branch
        (updateVideo vid (fun w => { w with
            status := "approved"
            adminNotes := some (notes ++ " Video approved but YouTube upload requires OAuth authorization.")
            reviewedBy := some identity
            youtubeUploadStatus := some "pending_oauth" }) db, 0)
    | none =>
      -- video absent: updateData keeps the requested status, updateOne matches nothing
      (updateVideo vid (fun w => { w with
          status := status, adminNotes := some notes, reviewedBy := some identity }) db, 0)
  else
    (updateVideo vid (fun w => { w with
        status := status, adminNotes := some notes, reviewedBy := some identity }) db, 0)

/-- `src/api/index.js` lines 702-726: writes the requested status, notes and
reviewer unconditionally; no authorization branch, no publish attempt. -/
def apiReviewVideo (identity vid status notes : String) (db : DB) : DB :=
  updateVideo vid (fun w => { w with
      status := status, adminNotes := some notes, reviewedBy := some identity }) db

/-! ## Publish endpoints -/

/-- `src/server/index.js` lines 793-900, `POST /api/videos/:videoId/publish`.
The permission query literal (lines 822-832) spells the key `$or` twice; in
JavaScript the second occurrence of a duplicate object key overwrites the
first, so the executed query constrains only the `accountId` field (the
video's account, converted with `new ObjectId(...)`, or `null`) and not the
caller's user id. -/
def serverPublishVideo (pub : Video → Except String String)
    (identity vid : String) (db : DB) : DB × Except ErrKind String :=
  match db.videos.find? (fun v => v.id == vid) with
  | none => (db, .error .notFound)
  | some v =>
    if v.status ≠ "approved" then (db, .error .badRequest)
    else
      match db.accounts.find? (fun a => a.id == v.accountId) with
      | none => (db, .error .notFound)
      | some acct =>
        if ¬ (acct.youtubeAccessToken.isSome && acct.youtubeRefreshToken.isSome) then
          (db, .error .badRequest)
        else
          match db.userRoles.find?
              (fun r => r.accountId == some (IdVal.oid v.accountId) ||
                r.accountId == none) with
          | none => (db, .error .accessDenied)
          | some rr =>
            if rr.role ≠ "owner" then (db, .error .accessDenied)
            else
              match pub v with
              | .ok yid =>
                (updateVideo vid (fun w => { w with
                    status := "published"
                    youtubeVideoId := some yid
                    publishedBy := some identity }) db, .ok yid)
              | .error e =>
                (updateVideo vid (fun w => { w with
                    status := "publish_failed", publishError := some e }) db,
                 .error .internal)

/-- `src/api/index.js` lines 1263-1420, `POST /api/videos/:videoId/publish`.
The credential guard checks `youtubeAccessToken` and `youtubeChannelId`; the
permission query constrains the caller's user id (a `$or` whose first entry is
`new ObjectId(userId)` for email callers and the plain string otherwise, and
whose second entry is always the plain string) and the video's account as an
`ObjectId`.  The catch branch (lines 1395-1418) stores status "failed". -/
def apiPublishVideo (pub : Video → Except String String)
    (identity vid : String) (db : DB) : DB × Except ErrKind String :=
  match db.videos.find? (fun v => v.id == vid) with
  | none => (db, .error .notFound)
  | some v =>
    if v.status ≠ "approved" then (db, .error .badRequest)
    else
      match db.accounts.find? (fun a => a.id == v.accountId) with
      | none => (db, .error .notFound)
      | some acct =>
        if ¬ (acct.youtubeAccessToken.isSome && acct.youtubeChannelId.isSome) then
          (db, .error .badRequest)
        else
          match db.userRoles.find?
              (fun r => (r.userId == IdVal.oid identity || r.userId == IdVal.str identity)
                && r.accountId == some (IdVal.oid v.accountId)) with
          | none => (db, .error .accessDenied)
          | some rr =>
            if rr.role ≠ "owner" then (db, .error .accessDenied)
            else
              match pub v with
              | .ok yid =>
                (updateVideo vid (fun w => { w with
                    status := "published"
                    youtubeVideoId := some yid
                    publishedBy := some identity }) db, .ok yid)
              | .error e =>
                (updateVideo vid (fun w => { w with
                    status := "failed", publishError := some e }) db,
                 .error .internal)

/-! ## Editor management -/

/-- `src/server/index.js` lines 971-1008, `POST /accounts/:accountId/editors`.
The handler never reads `req.user` beyond authentication: it performs no
ownership check before inserting the editor role.  Both the duplicate check
and the inserted row use the raw route parameter `accountId` — a plain
string, not an `ObjectId` — and the string id
`user.googleId || user._id.toString()`. -/
def serverAddEditor (_identity email accountId : String) (db : DB) :
    DB × Except ErrKind Unit :=
  match db.users.find? (fun u => u.email == email) with
  | none => (db, .error .notFound)
  | some u =>
    let uid := u.googleId.getD u.mongoId
    match db.userRoles.find? (fun r => r.userId == IdVal.str uid &&
        r.accountId == some (IdVal.str accountId)) with
    | some _ => (db, .error .badRequest)
    | none =>
      ({ db with userRoles := db.userRoles ++
          [{ userId := IdVal.str uid, accountId := some (IdVal.str accountId),
             role := "editor", isGlobalAdmin := false }] }, .ok ())

/-- `src/server/index.js` lines 1011-1026, `DELETE
/accounts/:accountId/editors/:userId`: deletes the editor role with no
ownership check and always reports success. -/
def serverRemoveEditor (_identity accountId userId : String) (db : DB) : DB :=
  { db with userRoles := (removeFirst
      (fun r => r.userId == IdVal.str userId &&
        r.accountId == some (IdVal.str accountId) && r.role == "editor")
      db.userRoles) }

/-- `src/api/index.js` lines 1008-1074, `POST /api/accounts/:accountId/editors`:
requires the caller to hold an `owner` role row on the account (queried as an
`ObjectId`) before inserting the editor role; the caller-id `$or` covers the
`ObjectId` form (taken for email callers) and the plain string.  The inserted
row is keyed by `userToAdd._id || userToAdd.googleId` — the raw `_id`
`ObjectId`, which is always present — and the account `ObjectId`. -/
def apiAddEditor (identity email accountId : String) (db : DB) :
    DB × Except ErrKind Unit :=
  match db.userRoles.find? (fun r =>
      (r.userId == IdVal.oid identity || r.userId == IdVal.str identity) &&
      r.accountId == some (IdVal.oid accountId)) with
  | none => (db, .error .accessDenied)
  | some rr =>
    if rr.role ≠ "owner" then (db, .error .accessDenied)
    else
      match db.users.find? (fun u => u.email == email.toLower) with
      | none => (db, .error .notFound)
      | some u =>
        let uid := IdVal.oid u.mongoId
        match db.userRoles.find? (fun r => r.userId == uid &&
            r.accountId == some (IdVal.oid accountId)) with
        | some _ => (db, .error .badRequest)
        | none =>
          ({ db with userRoles := db.userRoles ++
              [{ userId := uid, accountId := some (IdVal.oid accountId),
                 role := "editor", isGlobalAdmin := false }] }, .ok ())

/-- `src/api/index.js` lines 1077-1112, `DELETE
/api/accounts/:accountId/editors/:editorId`: owner check, then `deleteOne`
keyed by the raw string route parameter `editorId` and the account
`ObjectId`. -/
def apiRemoveEditor (identity accountId editorId : String) (db : DB) :
    DB × Except ErrKind Unit :=
  match db.userRoles.find? (fun r =>
      (r.userId == IdVal.oid identity || r.userId == IdVal.str identity) &&
      r.accountId == some (IdVal.oid accountId)) with
  | none => (db, .error .accessDenied)
  | some rr =>
    if rr.role ≠ "owner" then (db, .error .accessDenied)
    else
      if db.userRoles.any
          (fun r => r.userId == IdVal.str editorId &&
            r.accountId == some (IdVal.oid accountId) && r.role == "editor") then
        ({ db with userRoles := (removeFirst
            (fun r => r.userId == IdVal.str editorId &&
              r.accountId == some (IdVal.oid accountId) && r.role == "editor")
            db.userRoles) }, .ok ())
      else (db, .error .notFound)

/-! ## Google OAuth identity resolution -/

/-- The verified Google token payload (`sub`, `email`). -/
structure GooglePayload where
  googleId : String
  email : String
deriving DecidableEq, Repr

/-- The global-owner sentinel upsert of `src/api/index.js` lines 231-255:
find by `(userId: user.googleId, role: owner, isGlobalAdmin: true)` — the
plain `googleId` string — and insert the `accountId: null` sentinel keyed by
that string when absent. -/
def apiSentinelUpsert (googleId : String) (db : DB) : DB :=
  match db.userRoles.find?
      (fun r => r.userId == IdVal.str googleId && r.role == "owner" && r.isGlobalAdmin) with
  | some _ => db
  | none =>
    { db with userRoles := db.userRoles ++
        [{ userId := IdVal.str googleId, accountId := none, role := "owner",
           isGlobalAdmin := true }] }

/-- The upsert of `src/patch_admin_users.js` lines 31-62.  The script derives
its key as `user._id || user.googleId` (line 32); every Mongo document has an
`_id`, so the key is always the `ObjectId` `_id` — never the `googleId`
string under which the JWT-keyed per-account owner rows are stored.  It then
finds by `(userId, role: owner)` and inserts the `accountId: null` sentinel,
keyed by that `ObjectId`, when absent. -/
def patchSentinelUpsert (user : User) (db : DB) : DB :=
  let uid : IdVal := IdVal.oid user.mongoId
  match db.userRoles.find? (fun r => r.userId == uid && r.role == "owner") with
  | some _ => db
  | none =>
    { db with userRoles := db.userRoles ++
        [{ userId := uid, accountId := none, role := "owner", isGlobalAdmin := true }] }

/-- `src/server/index.js` lines 139-217, `POST /auth/google`: look up by
`googleId`; create a fresh `admin` user when absent, otherwise touch only
`updatedAt`.  No lookup by email, no role promotion.  Returns the new
database and the role placed in the JWT (`user.role`). -/
def serverGoogleAuth (freshId : String) (p : GooglePayload) (db : DB) : DB × String :=
  match db.users.find? (fun u => u.googleId == some p.googleId) with
  | some u => (db, u.role)
  | none =>
    let nu : User := { mongoId := freshId, googleId := some p.googleId,
                       email := p.email, role := "admin", authType := none }
    ({ db with users := db.users ++ [nu] }, "admin")

/-- `src/api/index.js` lines 153-296, `POST /api/auth/google`: look up by
`googleId`, else by email (attaching the google id and promoting to admin),
else create an admin; an existing google user with another role is promoted.
Then the sentinel upsert runs (the guard `user.role === admin` holds on every
path).  The JWT role is `admin` on every path. -/
def apiGoogleAuth (freshId : String) (p : GooglePayload) (db : DB) : DB × String :=
  match db.users.find? (fun u => u.googleId == some p.googleId) with
  | some u =>
    let db1 :=
      if u.role ≠ "admin" then
        { db with users := (updateFirst (fun w => w.mongoId == u.mongoId)
            (fun w => { w with role := "admin" }) db.users) }
      else db
    (apiSentinelUpsert p.googleId db1, "admin")
  | none =>
    match db.users.find? (fun u => u.email == p.email) with
    | some u =>
      let db1 := { db with users := (updateFirst (fun w => w.mongoId == u.mongoId)
          (fun w => { w with googleId := some p.googleId, role := "admin" }) db.users) }
      (apiSentinelUpsert p.googleId db1, "admin")
    | none =>
      let nu : User := { mongoId := freshId, googleId := some p.googleId,
                         email := p.email, role := "admin", authType := none }
      (apiSentinelUpsert p.googleId { db with users := db.users ++ [nu] }, "admin")

/-! ## Account listing -/

/-- `userRole ? userRole.role : 'editor'` from the non-admin tagging step. -/
def roleTag : Option UserRole → String
  | some r => r.role
  | none => "editor"

/-- `userRoles.find(ur => ur.accountId.equals(account._id))`: JavaScript
`Array.find` evaluates the predicate element by element.  Only an `ObjectId`
has an `.equals` method: `null.equals(...)` throws a TypeError, and so does
`.equals` on a plain string (strings have no such method), so a sentinel row
or a string-keyed row encountered before a match sends the request to the
catch-all branch. -/
def findRoleStrict (roles : List UserRole) (aid : String) : Except ErrKind (Option UserRole) :=
  match roles with
  | [] => .ok none
  | r :: rs =>
    match r.accountId with
    | none => .error .internal
    | some (.str _) => .error .internal
    | some (.oid x) => if x = aid then .ok (some r) else findRoleStrict rs aid

/-- The tagging map of the non-admin branch (`accounts.map(...)` with the
strict role lookup inside). -/
def tagAccounts (roles : List UserRole) : List Account → Except ErrKind (List (Account × String))
  | [] => .ok []
  | a :: rest => do
    let r ← findRoleStrict roles a.id
    let tl ← tagAccounts roles rest
    pure ((a, roleTag r) :: tl)

/-- `GET /accounts` in `src/server/index.js` lines 554-626 (the api variant,
`GET /api/accounts` lines 517-621, is identical in every modelled respect).
Admin branch: accounts with `ownerId` or `youtubeAuthorizedBy` equal to the
caller, all tagged `owner`.  Non-admin branch: the caller's role rows are
fetched by the plain JWT string id, their `accountId` values go unconverted
into the `_id: { $in: ... }` accounts query — where only an `ObjectId` entry
can match an account's `_id`, a plain-string entry never does — and the
selected accounts are tagged with the strict `.equals` lookup. -/
def listAccounts (ident : String) (db : DB) : Except ErrKind (List (Account × String)) :=
  match lookupUser ident db with
  | none => .error .notFound
  | some u =>
    let roles := db.userRoles.filter (fun r => r.userId == IdVal.str ident)
    if u.role = "admin" then
      .ok ((db.accounts.filter
              (fun a => a.ownerId == ident || a.youtubeAuthorizedBy == some ident)).map
            (fun a => (a, "owner")))
    else if roles.isEmpty then .ok []
    else
      let accountIds := roles.map (fun r => r.accountId)
      tagAccounts roles
        (db.accounts.filter (fun a => accountIds.contains (some (IdVal.oid a.id))))

/-! ## Video listing -/

/-- `userRoles.map(ur => ur.accountId.toString())` from `GET /api/videos`
(`src/api/index.js` line 669; the same expression is `src/server/index.js`
line 753): `null.toString()` throws, so a sentinel row aborts the map; an
`ObjectId` stringifies to its hex value and a string to itself. -/
def accessibleIdStrings : List UserRole → Except ErrKind (List String)
  | [] => .ok []
  | r :: rs =>
    match r.accountId with
    | none => .error .internal
    | some (.oid a) => (accessibleIdStrings rs).map (fun l => a :: l)
    | some (.str a) => (accessibleIdStrings rs).map (fun l => a :: l)

/-- `GET /api/videos`, `src/api/index.js` lines 658-698. -/
def apiListVideos (ident : String) (requested : Option (List String)) (db : DB) :
    Except ErrKind (List Video) := do
  let roles := db.userRoles.filter (fun r => r.userId == IdVal.str ident)
  let accessible ← accessibleIdStrings roles
  match requested with
  | some req =>
    let allowed := req.filter (fun i => accessible.contains i)
    if allowed.isEmpty then pure []
    else pure (db.videos.filter (fun v => allowed.contains v.accountId))
  | none =>
    if accessible.isEmpty then pure []
    else pure (db.videos.filter (fun v => accessible.contains v.accountId))

/-- Number of global-owner sentinel rows (`accountId: null`, role `owner`)
stored under a given key value. -/
def sentinelCountAt (uid : IdVal) (db : DB) : Nat :=
  (db.userRoles.filter
    (fun r => r.userId == uid && r.role == "owner" && r.accountId.isNone)).length

instance {ε α : Type} [DecidableEq ε] [DecidableEq α] : DecidableEq (Except ε α) :=
  fun a b =>
    match a, b with
    | .ok x, .ok y =>
      if h : x = y then .isTrue (by rw [h]) else .isFalse (fun hh => h (Except.ok.inj hh))
    | .error x, .error y =>
      if h : x = y then .isTrue (by rw [h]) else .isFalse (fun hh => h (Except.error.inj hh))
    | .ok _, .error _ => .isFalse (fun hh => Except.noConfusion hh)
    | .error _, .ok _ => .isFalse (fun hh => Except.noConfusion hh)

/-! ## General lemmas about the list-level database primitives -/

theorem find?_updateFirst {α : Type} (p : α → Bool) (f : α → α)
    (hf : ∀ a, p a = true → p (f a) = true) (l : List α) :
    (updateFirst p f l).find? p = (l.find? p).map f := by
  induction l with
  | nil => rfl
  | cons x xs ih =>
    cases hx : p x with
    | true =>
      simp [updateFirst, hx, List.find?_cons_of_pos, hf x hx]
    | false =>
      simp [updateFirst, hx, List.find?_cons_of_neg, ih]

theorem videoStatus_updateVideo (vid : String) (f : Video → Video)
    (hf : ∀ v, (f v).id = v.id) (db : DB) :
    videoStatus (updateVideo vid f db) vid
      = (db.videos.find? (fun v => v.id == vid)).map (fun v => (f v).status) := by
  have hp : ∀ v : Video, (v.id == vid) = true → ((f v).id == vid) = true := by
    intro v hv
    simpa [hf v] using hv
  simp [videoStatus, updateVideo, find?_updateFirst _ f hp, Option.map_map]
  rfl

theorem videoUploadStatus_updateVideo (vid : String) (f : Video → Video)
    (hf : ∀ v, (f v).id = v.id) (db : DB) :
    videoUploadStatus (updateVideo vid f db) vid
      = (db.videos.find? (fun v => v.id == vid)).map (fun v => (f v).youtubeUploadStatus) := by
  have hp : ∀ v : Video, (v.id == vid) = true → ((f v).id == vid) = true := by
    intro v hv
    simpa [hf v] using hv
  simp [videoUploadStatus, updateVideo, find?_updateFirst _ f hp, Option.map_map]
  rfl

theorem videoPublishError_updateVideo (vid : String) (f : Video → Video)
    (hf : ∀ v, (f v).id = v.id) (db : DB) :
    videoPublishError (updateVideo vid f db) vid
      = (db.videos.find? (fun v => v.id == vid)).map (fun v => (f v).publishError) := by
  have hp : ∀ v : Video, (v.id == vid) = true → ((f v).id == vid) = true := by
    intro v hv
    simpa [hf v] using hv
  simp [videoPublishError, updateVideo, find?_updateFirst _ f hp, Option.map_map]
  rfl

/-! ## C1: review authorization -/

/-- State for C1: `olivia` owns account `a1`; `eve` is an authenticated user
with no role assignment of any kind; `v1` is a pending video on `a1`. -/
def exC1 : DB :=
  { users := [{ mongoId := "mo", googleId := some "olivia", email := "olivia@x.com",
                role := "admin", authType := none },
              { mongoId := "me", googleId := some "eve", email := "eve@x.com",
                role := "user", authType := none }]
    accounts := [{ id := "a1", name := "Channel A", ownerId := "olivia",
                   youtubeAuthorizedBy := none, youtubeAccessToken := none,
                   youtubeRefreshToken := none, youtubeChannelId := none }]
    userRoles := [{ userId := IdVal.str "olivia", accountId := some (IdVal.oid "a1"),
                    role := "owner", isGlobalAdmin := false }]
    videos := [{ id := "v1", title := "T", accountId := "a1", status := "pending",
                 adminNotes := none, reviewedBy := none, youtubeUploadStatus := none,
                 publishError := none, youtubeVideoId := none, publishedBy := none }] }

/-- C1: the review operation has no authorization branch.  `eve` holds neither
an owner role on `a1` nor a global-owner sentinel, yet both variants of the
status-update endpoint accept her rejection and mutate the stored video, where
the claim demands an `AccessDenied` failure with the state unchanged. -/
theorem c1_review_without_any_role_succeeds :
    exC1.userRoles.filter
      (fun r => r.userId == IdVal.str "eve" || r.userId == IdVal.oid "me") = [] ∧
    videoStatus (serverReviewVideo (fun _ => Except.error "unused")
        "eve" "v1" "rejected" "no" exC1).1 "v1" = some "rejected" ∧
    videoStatus (apiReviewVideo "eve" "v1" "rejected" "no" exC1) "v1"
      = some "rejected" := by
  refine ⟨by decide, ?_, ?_⟩ <;> rfl

/-! ## C2: editor management and publish-trigger authorization -/

/-- State for C2: `olivia` owns `a1` (with stored YouTube credentials);
`carol` is an editor on `a1`; `bob` is an email user with no roles; `eve` is
an authenticated user with no role assignment. `v1` is approved. -/
def exC2 : DB :=
  { users := [{ mongoId := "mo", googleId := some "olivia", email := "olivia@x.com",
                role := "admin", authType := none },
              { mongoId := "me", googleId := some "eve", email := "eve@x.com",
                role := "user", authType := none },
              { mongoId := "mb", googleId := none, email := "bob@x.com",
                role := "user", authType := some "email" }]
    accounts := [{ id := "a1", name := "Channel A", ownerId := "olivia",
                   youtubeAuthorizedBy := none, youtubeAccessToken := some "tok",
                   youtubeRefreshToken := some "ref", youtubeChannelId := some "ch" }]
    userRoles := [{ userId := IdVal.str "olivia", accountId := some (IdVal.oid "a1"),
                    role := "owner", isGlobalAdmin := false },
                  { userId := IdVal.str "carol", accountId := some (IdVal.str "a1"),
                    role := "editor", isGlobalAdmin := false }]
    videos := [{ id := "v1", title := "T", accountId := "a1", status := "approved",
                 adminNotes := none, reviewedBy := none, youtubeUploadStatus := none,
                 publishError := none, youtubeVideoId := none, publishedBy := none }] }

/-- C2: in the server variant, `eve` — who holds no role on `a1` at all —
successfully adds `bob` as editor, removes editor `carol`, and triggers the
publish endpoint (whose broken duplicate-`$or` query never constrains the
caller), where the claim demands `AccessDenied` with no role mutation and no
publication. -/
theorem c2_no_owner_check_on_server_editor_and_publish_ops :
    exC2.userRoles.filter
      (fun r => r.userId == IdVal.str "eve" || r.userId == IdVal.oid "me") = [] ∧
    (serverAddEditor "eve" "bob@x.com" "a1" exC2).2 = Except.ok () ∧
    ((serverAddEditor "eve" "bob@x.com" "a1" exC2).1.userRoles.any
      (fun r => r.userId == IdVal.str "mb" &&
        r.accountId == some (IdVal.str "a1") && r.role == "editor")) = true ∧
    ((serverRemoveEditor "eve" "a1" "carol" exC2).userRoles.any
      (fun r => r.userId == IdVal.str "carol" || r.userId == IdVal.oid "carol")) = false ∧
    (serverPublishVideo (fun _ => Except.ok "ytid") "eve" "v1" exC2).2 = Except.ok "ytid" ∧
    videoStatus (serverPublishVideo (fun _ => Except.ok "ytid") "eve" "v1" exC2).1 "v1"
      = some "published" := by
  refine ⟨by decide, rfl, by decide, by decide, rfl, rfl⟩

/-! ## C3: reachable status transitions -/

/-- A published video on `olivia`'s account. -/
def exC3v1 : Video :=
  { id := "v1", title := "T1", accountId := "a1", status := "published",
    adminNotes := none, reviewedBy := none, youtubeUploadStatus := none,
    publishError := none, youtubeVideoId := some "y1", publishedBy := some "olivia" }

/-- A rejected video on `olivia`'s account. -/
def exC3v2 : Video :=
  { id := "v2", title := "T2", accountId := "a1", status := "rejected",
    adminNotes := none, reviewedBy := none, youtubeUploadStatus := none,
    publishError := none, youtubeVideoId := none, publishedBy := none }

/-- State for C3: `olivia` owns `a1` (an authorized reviewer), `v1` is
published, `v2` is rejected. -/
def exC3 : DB :=
  { users := [{ mongoId := "mo", googleId := some "olivia", email := "olivia@x.com",
                role := "admin", authType := none }]
    accounts := [{ id := "a1", name := "Channel A", ownerId := "olivia",
                   youtubeAuthorizedBy := none, youtubeAccessToken := none,
                   youtubeRefreshToken := none, youtubeChannelId := none }]
    userRoles := [{ userId := IdVal.str "olivia", accountId := some (IdVal.oid "a1"),
                    role := "owner", isGlobalAdmin := false }]
    videos := [exC3v1, exC3v2] }

/-- C3 counterexample: the owner `olivia` rejects the already-published `v1`
(transition `published → rejected`) and approves the already-rejected `v2`
(transition `rejected → approved`); both forbidden transitions happen, so
`rejected` and `published` are not terminal. -/
theorem c3_counterexample :
    videoStatus exC3 "v1" = some "published" ∧
    videoStatus (serverReviewVideo (fun _ => Except.error "unused")
        "olivia" "v1" "rejected" "n" exC3).1 "v1" = some "rejected" ∧
    videoStatus exC3 "v2" = some "rejected" ∧
    videoStatus (apiReviewVideo "olivia" "v2" "approved" "n" exC3) "v2"
      = some "approved" := by
  exact ⟨rfl, rfl, rfl, rfl⟩

/-- C3 amended: the status-update handlers write the requested status
unconditionally, so every transition between statuses is reachable; only the
explicit publish endpoints check the current status, refusing (HTTP 400,
state unchanged) any video whose status is not `approved`. -/
theorem c3_amended (pub : Video → Except String String)
    (ident vid s notes : String) (db : DB) (v : Video)
    (hv : db.videos.find? (fun x => x.id == vid) = some v)
    (hs : s ≠ "approved") :
    videoStatus (serverReviewVideo pub ident vid s notes db).1 vid = some s ∧
    videoStatus (apiReviewVideo ident vid s notes db) vid = some s ∧
    (v.status ≠ "approved" →
      serverPublishVideo pub ident vid db = (db, Except.error ErrKind.badRequest) ∧
      apiPublishVideo pub ident vid db = (db, Except.error ErrKind.badRequest)) := by
  refine ⟨?_, ?_, ?_⟩
  · have h1 : (serverReviewVideo pub ident vid s notes db).1
        = updateVideo vid (fun w => { w with
            status := s, adminNotes := some notes, reviewedBy := some ident }) db := by
      simp [serverReviewVideo, hs]
    rw [h1, videoStatus_updateVideo vid
      (fun w => { w with status := s, adminNotes := some notes, reviewedBy := some ident })
      (fun _ => rfl) db, hv]
    rfl
  · rw [apiReviewVideo, videoStatus_updateVideo vid
      (fun w => { w with status := s, adminNotes := some notes, reviewedBy := some ident })
      (fun _ => rfl) db, hv]
    rfl
  · intro hvs
    constructor
    · simp [serverPublishVideo, hv, hvs]
    · simp [apiPublishVideo, hv, hvs]

/-- Witness for `c3_amended` at the concrete state `exC3`. -/
theorem c3_amended_witness :
    videoStatus (serverReviewVideo (fun _ => Except.error "e")
        "olivia" "v1" "rejected" "n" exC3).1 "v1" = some "rejected" ∧
    videoStatus (apiReviewVideo "olivia" "v1" "rejected" "n" exC3) "v1"
      = some "rejected" ∧
    (exC3v1.status ≠ "approved" →
      serverPublishVideo (fun _ => Except.error "e") "olivia" "v1" exC3
        = (exC3, Except.error ErrKind.badRequest) ∧
      apiPublishVideo (fun _ => Except.error "e") "olivia" "v1" exC3
        = (exC3, Except.error ErrKind.badRequest)) :=
  c3_amended (fun _ => Except.error "e") "olivia" "v1" "rejected" "n" exC3 exC3v1
    rfl (by decide)

/-! ## C4: oauth identities resolve to admin -/

/-- State for C4: a pre-existing user whose Google subject id is `g1` but
whose stored role is `user`. -/
def exC4 : DB :=
  { users := [{ mongoId := "m1", googleId := some "g1", email := "e@x.com",
                role := "user", authType := none }]
    accounts := [], userRoles := [], videos := [] }

/-- C4 counterexample: in the server variant a pre-existing user matched by
subject id is not promoted — the resolved role stays `user`. -/
theorem c4_counterexample :
    (serverGoogleAuth "f1" { googleId := "g1", email := "e@x.com" } exC4).2 = "user" ∧
    (serverGoogleAuth "f1" { googleId := "g1", email := "e@x.com" } exC4).1 = exC4 ∧
    "user" ≠ "admin" := by
  exact ⟨rfl, rfl, by decide⟩

/-- C4 amended: the api variant always resolves role `admin`; the server
variant resolves the stored role of an existing subject-id-matched user, with
no promotion and no change to the user set. -/
theorem c4_amended (freshId : String) (p : GooglePayload) (db : DB) (u : User)
    (hu : db.users.find? (fun w => w.googleId == some p.googleId) = some u) :
    (apiGoogleAuth freshId p db).2 = "admin" ∧
    (serverGoogleAuth freshId p db).2 = u.role ∧
    (serverGoogleAuth freshId p db).1 = db := by
  refine ⟨?_, ?_, ?_⟩
  · simp [apiGoogleAuth, hu]
  · simp [serverGoogleAuth, hu]
  · simp [serverGoogleAuth, hu]

/-- Witness for `c4_amended` at the concrete state `exC4`. -/
theorem c4_amended_witness :
    (apiGoogleAuth "f1" { googleId := "g1", email := "e@x.com" } exC4).2 = "admin" ∧
    (serverGoogleAuth "f1" { googleId := "g1", email := "e@x.com" } exC4).2
      = ({ mongoId := "m1", googleId := some "g1", email := "e@x.com",
           role := "user", authType := none } : User).role ∧
    (serverGoogleAuth "f1" { googleId := "g1", email := "e@x.com" } exC4).1 = exC4 :=
  c4_amended "f1" { googleId := "g1", email := "e@x.com" } exC4
    { mongoId := "m1", googleId := some "g1", email := "e@x.com",
      role := "user", authType := none } rfl

/-! ## C5: account visibility for admins -/

/-- C5: for an admin caller the account listing is exactly the accounts
whose `ownerId` or `youtubeAuthorizedBy` is the caller, every entry tagged
`owner`; an account where the admin is merely an editor never appears. -/
theorem c5_admin_account_visibility (ident : String) (db : DB) (u : User)
    (hu : lookupUser ident db = some u) (hrole : u.role = "admin") :
    ∃ l, listAccounts ident db = Except.ok l ∧
      (∀ a : Account, ((a, "owner") ∈ l ↔
        (a ∈ db.accounts ∧ (a.ownerId = ident ∨ a.youtubeAuthorizedBy = some ident)))) ∧
      (∀ e ∈ l, e.2 = "owner") ∧
      (∀ a ∈ db.accounts, a.ownerId ≠ ident → a.youtubeAuthorizedBy ≠ some ident →
        ∀ tag, (a, tag) ∉ l) := by
  have hl : listAccounts ident db = Except.ok
      ((db.accounts.filter
          (fun a => a.ownerId == ident || a.youtubeAuthorizedBy == some ident)).map
        (fun a => (a, "owner"))) := by
    simp [listAccounts, hu, hrole]
  refine ⟨_, hl, ?_, ?_, ?_⟩
  · intro a
    constructor
    · intro ha
      rcases List.mem_map.mp ha with ⟨b, hb, hba⟩
      rcases List.mem_filter.mp hb with ⟨hbmem, hbp⟩
      have hab : b = a := congrArg Prod.fst hba
      subst hab
      refine ⟨hbmem, ?_⟩
      simpa using hbp
    · intro ⟨hmem, hcond⟩
      refine List.mem_map.mpr ⟨a, List.mem_filter.mpr ⟨hmem, ?_⟩, rfl⟩
      simpa using hcond
  · intro e he
    rcases List.mem_map.mp he with ⟨b, _, hba⟩
    rw [← hba]
  · intro a _ hown hauth tag hmem
    rcases List.mem_map.mp hmem with ⟨b, hb, hba⟩
    have hab : b = a := congrArg Prod.fst hba
    rw [hab] at hb
    rcases List.mem_filter.mp hb with ⟨_, hbp⟩
    have hx : a.ownerId = ident ∨ a.youtubeAuthorizedBy = some ident := by
      simpa using hbp
    rcases hx with h | h
    · exact hown h
    · exact hauth h

/-- The admin `olivia` for the C5 witness state. -/
def exC5u : User :=
  { mongoId := "mo", googleId := some "olivia", email := "olivia@x.com",
    role := "admin", authType := none }

/-- State for the C5 witness: `olivia` owns `a1`, authorized YouTube on `a2`,
and is merely an editor on `a3` (owned by `pete`). -/
def exC5 : DB :=
  { users := [exC5u]
    accounts := [{ id := "a1", name := "A", ownerId := "olivia",
                   youtubeAuthorizedBy := none, youtubeAccessToken := none,
                   youtubeRefreshToken := none, youtubeChannelId := none },
                 { id := "a2", name := "B", ownerId := "pete",
                   youtubeAuthorizedBy := some "olivia", youtubeAccessToken := none,
                   youtubeRefreshToken := none, youtubeChannelId := none },
                 { id := "a3", name := "C", ownerId := "pete",
                   youtubeAuthorizedBy := none, youtubeAccessToken := none,
                   youtubeRefreshToken := none, youtubeChannelId := none }]
    userRoles := [{ userId := IdVal.str "olivia", accountId := some (IdVal.oid "a3"),
                    role := "editor", isGlobalAdmin := false }]
    videos := [] }

/-- Witness for `c5_admin_account_visibility` at `exC5`. -/
theorem c5_admin_account_visibility_witness :
    ∃ l, listAccounts "olivia" exC5 = Except.ok l ∧
      (∀ a : Account, ((a, "owner") ∈ l ↔
        (a ∈ exC5.accounts ∧ (a.ownerId = "olivia" ∨ a.youtubeAuthorizedBy = some "olivia")))) ∧
      (∀ e ∈ l, e.2 = "owner") ∧
      (∀ a ∈ exC5.accounts, a.ownerId ≠ "olivia" → a.youtubeAuthorizedBy ≠ some "olivia" →
        ∀ tag, (a, tag) ∉ l) :=
  c5_admin_account_visibility "olivia" exC5 exC5u rfl rfl

/-! ## C6: account visibility for non-admins -/

/-- The account without publish credentials used by C7. -/
def exC7a : Account :=
  { id := "a1", name := "Channel A", ownerId := "olivia",
    youtubeAuthorizedBy := none, youtubeAccessToken := none,
    youtubeRefreshToken := none, youtubeChannelId := none }

/-- The pending video used by C7. -/
def exC7v1 : Video :=
  { id := "v1", title := "T", accountId := "a1", status := "pending",
    adminNotes := none, reviewedBy := none, youtubeUploadStatus := none,
    publishError := none, youtubeVideoId := none, publishedBy := none }

/-- State for C7: `olivia` holds the owner role on `a1` (so she is an
authorized reviewer), `a1` carries no YouTube tokens, `v1` is pending. -/
def exC7 : DB :=
  { users := [{ mongoId := "mo", googleId := some "olivia", email := "olivia@x.com",
                role := "admin", authType := none }]
    accounts := [exC7a]
    userRoles := [{ userId := IdVal.str "olivia", accountId := some (IdVal.oid "a1"),
                    role := "owner", isGlobalAdmin := false }]
    videos := [exC7v1] }

/-- C7 counterexample: in the api variant, the owner approves `v1` while the
account has no stored credentials; the resulting status is `approved` but no
pending-publication sub-flag is set (`youtubeUploadStatus` stays absent),
where the claim demands the sub-flag. -/
theorem c7_counterexample :
    (∃ r ∈ exC7.userRoles, r.userId = IdVal.str "olivia" ∧
      r.accountId = some (IdVal.oid "a1") ∧ r.role = "owner") ∧
    exC7a.youtubeAccessToken = none ∧
    videoStatus (apiReviewVideo "olivia" "v1" "approved" "ok" exC7) "v1"
      = some "approved" ∧
    videoUploadStatus (apiReviewVideo "olivia" "v1" "approved" "ok" exC7) "v1"
      = some none := by
  exact ⟨by decide, rfl, rfl, rfl⟩

/-- C7 amended: when a video is approved while its account stores no complete
pair of YouTube tokens, the server variant leaves it `approved` with the
sub-flag `youtubeUploadStatus = pending_oauth` and never invokes the
Publication Adapter; the api variant leaves it `approved` with its sub-flag
untouched and never invokes the adapter. -/
theorem c7_amended (pub : Video → Except String String)
    (ident vid notes : String) (db : DB) (v : Video)
    (hv : db.videos.find? (fun x => x.id == vid) = some v)
    (hna : ∀ a, db.accounts.find? (fun w => w.id == v.accountId) = some a →
      ¬(a.youtubeAccessToken.isSome ∧ a.youtubeRefreshToken.isSome)) :
    videoStatus (serverReviewVideo pub ident vid "approved" notes db).1 vid
      = some "approved" ∧
    videoUploadStatus (serverReviewVideo pub ident vid "approved" notes db).1 vid
      = some (some "pending_oauth") ∧
    (serverReviewVideo pub ident vid "approved" notes db).2 = 0 ∧
    videoStatus (apiReviewVideo ident vid "approved" notes db) vid = some "approved" ∧
    videoUploadStatus (apiReviewVideo ident vid "approved" notes db) vid
      = some v.youtubeUploadStatus := by
  have hsrv : serverReviewVideo pub ident vid "approved" notes db
      = (updateVideo vid (fun w => { w with
          status := "approved"
          adminNotes := some
            (notes ++ " Video approved but YouTube upload requires OAuth authorization.")
          reviewedBy := some ident
          youtubeUploadStatus := some "pending_oauth" }) db, 0) := by
    rcases ha : db.accounts.find? (fun w => w.id == v.accountId) with _ | a
    · simp [serverReviewVideo, hv, ha]
    · have hb : (a.youtubeAccessToken.isSome && a.youtubeRefreshToken.isSome) = false := by
        cases hx : a.youtubeAccessToken.isSome with
        | false => simp
        | true =>
          cases hy : a.youtubeRefreshToken.isSome with
          | false => simp
          | true => exact absurd ⟨hx, hy⟩ (hna a ha)
      simp [serverReviewVideo, hv, ha, hb]
  rw [hsrv]
  refine ⟨?_, ?_, rfl, ?_, ?_⟩
  · rw [videoStatus_updateVideo vid
      (fun w => { w with
          status := "approved"
          adminNotes := some
            (notes ++ " Video approved but YouTube upload requires OAuth authorization.")
          reviewedBy := some ident
          youtubeUploadStatus := some "pending_oauth" }) (fun _ => rfl) db, hv]
    rfl
  · rw [videoUploadStatus_updateVideo vid
      (fun w => { w with
          status := "approved"
          adminNotes := some
            (notes ++ " Video approved but YouTube upload requires OAuth authorization.")
          reviewedBy := some ident
          youtubeUploadStatus := some "pending_oauth" }) (fun _ => rfl) db, hv]
    rfl
  · rw [apiReviewVideo, videoStatus_updateVideo vid
      (fun w => { w with
          status := "approved", adminNotes := some notes, reviewedBy := some ident })
      (fun _ => rfl) db, hv]
    rfl
  · rw [apiReviewVideo, videoUploadStatus_updateVideo vid
      (fun w => { w with
          status := "approved", adminNotes := some notes, reviewedBy := some ident })
      (fun _ => rfl) db, hv]
    rfl

/-- Witness for `c7_amended` at `exC7`. -/
theorem c7_amended_witness :
    videoStatus (serverReviewVideo (fun _ => Except.error "e")
        "olivia" "v1" "approved" "ok" exC7).1 "v1" = some "approved" ∧
    videoUploadStatus (serverReviewVideo (fun _ => Except.error "e")
        "olivia" "v1" "approved" "ok" exC7).1 "v1" = some (some "pending_oauth") ∧
    (serverReviewVideo (fun _ => Except.error "e")
        "olivia" "v1" "approved" "ok" exC7).2 = 0 ∧
    videoStatus (apiReviewVideo "olivia" "v1" "approved" "ok" exC7) "v1"
      = some "approved" ∧
    videoUploadStatus (apiReviewVideo "olivia" "v1" "approved" "ok" exC7) "v1"
      = some exC7v1.youtubeUploadStatus :=
  c7_amended (fun _ => Except.error "e") "olivia" "v1" "ok" exC7 exC7v1 rfl
    (by
      intro a ha
      have hx : some exC7a = some a := ha
      cases hx
      decide)

/-! ## C8: failed publication attempts -/

/-- The account with stored credentials used by C8. -/
def exC8a : Account :=
  { id := "a1", name := "Channel A", ownerId := "olivia",
    youtubeAuthorizedBy := none, youtubeAccessToken := some "tok",
    youtubeRefreshToken := some "ref", youtubeChannelId := some "ch" }

/-- The approved video used by C8. -/
def exC8v1 : Video :=
  { id := "v1", title := "T", accountId := "a1", status := "approved",
    adminNotes := none, reviewedBy := none, youtubeUploadStatus := none,
    publishError := none, youtubeVideoId := none, publishedBy := none }

/-- The owner role row used by C8 (string user key, `ObjectId` account
reference, as account creation writes it). -/
def exC8r : UserRole :=
  { userId := IdVal.str "olivia", accountId := some (IdVal.oid "a1"),
    role := "owner", isGlobalAdmin := false }

/-- State for C8: `olivia` owns `a1`, which has stored credentials; `v1` is
approved. -/
def exC8 : DB :=
  { users := [{ mongoId := "mo", googleId := some "olivia", email := "olivia@x.com",
                role := "admin", authType := none }]
    accounts := [exC8a]
    userRoles := [exC8r]
    videos := [exC8v1] }

/-- C8 counterexample: in the api variant the catch branch of the publish
endpoint stores status `failed`, not `publish_failed`, when the upload
throws. -/
theorem c8_counterexample :
    videoStatus (apiPublishVideo (fun _ => Except.error "quota")
        "olivia" "v1" exC8).1 "v1" = some "failed" ∧
    (some "failed" : Option String) ≠ some "publish_failed" ∧
    videoPublishError (apiPublishVideo (fun _ => Except.error "quota")
        "olivia" "v1" exC8).1 "v1" = some (some "quota") := by
  exact ⟨rfl, by decide, rfl⟩

/-- C8 amended: when the Publication Adapter throws on an approved video with
stored credentials, the server variant records `publish_failed` with the
reason (in `publishError` on the publish endpoint, and with
`youtubeUploadStatus = failed` plus the reason in the notes on the approve
branch), while the api publish endpoint records status `failed` with the
reason in `publishError`. -/
theorem c8_amended (pub : Video → Except String String)
    (ident vid notes e : String) (db : DB) (v : Video) (acct : Account)
    (rrS rrA : UserRole)
    (hv : db.videos.find? (fun x => x.id == vid) = some v)
    (hstat : v.status = "approved")
    (ha : db.accounts.find? (fun w => w.id == v.accountId) = some acct)
    (hacc : acct.youtubeAccessToken.isSome)
    (href : acct.youtubeRefreshToken.isSome)
    (hch : acct.youtubeChannelId.isSome)
    (hsrole : db.userRoles.find?
        (fun r => r.accountId == some (IdVal.oid v.accountId) ||
          r.accountId == none) = some rrS)
    (hsrole2 : rrS.role = "owner")
    (harole : db.userRoles.find?
        (fun r => (r.userId == IdVal.oid ident || r.userId == IdVal.str ident) &&
          r.accountId == some (IdVal.oid v.accountId)) = some rrA)
    (harole2 : rrA.role = "owner")
    (hpub : pub v = Except.error e) :
    videoStatus (serverPublishVideo pub ident vid db).1 vid = some "publish_failed" ∧
    videoPublishError (serverPublishVideo pub ident vid db).1 vid = some (some e) ∧
    (serverPublishVideo pub ident vid db).2 = Except.error ErrKind.internal ∧
    videoStatus (apiPublishVideo pub ident vid db).1 vid = some "failed" ∧
    videoPublishError (apiPublishVideo pub ident vid db).1 vid = some (some e) ∧
    videoStatus (serverReviewVideo pub ident vid "approved" notes db).1 vid
      = some "publish_failed" ∧
    videoUploadStatus (serverReviewVideo pub ident vid "approved" notes db).1 vid
      = some (some "failed") := by
  have hsp : serverPublishVideo pub ident vid db
      = (updateVideo vid (fun w => { w with
          status := "publish_failed", publishError := some e }) db,
         Except.error ErrKind.internal) := by
    simp [serverPublishVideo, hv, hstat, ha, hacc, href, hsrole, hsrole2, hpub]
  have hap : apiPublishVideo pub ident vid db
      = (updateVideo vid (fun w => { w with
          status := "failed", publishError := some e }) db,
         Except.error ErrKind.internal) := by
    simp [apiPublishVideo, hv, hstat, ha, hacc, hch, harole, harole2, hpub]
  have hrv : serverReviewVideo pub ident vid "approved" notes db
      = (updateVideo vid (fun w => { w with
          status := "publish_failed"
          adminNotes := some (notes ++ " YouTube publishing failed: " ++ e)
          reviewedBy := some ident
          youtubeUploadStatus := some "failed" }) db, 1) := by
    simp [serverReviewVideo, hv, ha, hacc, href, hpub]
  rw [hsp, hap, hrv]
  refine ⟨?_, ?_, rfl, ?_, ?_, ?_, ?_⟩
  · rw [videoStatus_updateVideo vid
      (fun w => { w with status := "publish_failed", publishError := some e })
      (fun _ => rfl) db, hv]
    rfl
  · rw [videoPublishError_updateVideo vid
      (fun w => { w with status := "publish_failed", publishError := some e })
      (fun _ => rfl) db, hv]
    rfl
  · rw [videoStatus_updateVideo vid
      (fun w => { w with status := "failed", publishError := some e })
      (fun _ => rfl) db, hv]
    rfl
  · rw [videoPublishError_updateVideo vid
      (fun w => { w with status := "failed", publishError := some e })
      (fun _ => rfl) db, hv]
    rfl
  · rw [videoStatus_updateVideo vid
      (fun w => { w with
          status := "publish_failed"
          adminNotes := some (notes ++ " YouTube publishing failed: " ++ e)
          reviewedBy := some ident
          youtubeUploadStatus := some "failed" }) (fun _ => rfl) db, hv]
    rfl
  · rw [videoUploadStatus_updateVideo vid
      (fun w => { w with
          status := "publish_failed"
          adminNotes := some (notes ++ " YouTube publishing failed: " ++ e)
          reviewedBy := some ident
          youtubeUploadStatus := some "failed" }) (fun _ => rfl) db, hv]
    rfl

/-- Witness for `c8_amended` at `exC8`. -/
theorem c8_amended_witness :
    videoStatus (serverPublishVideo (fun _ => Except.error "quota")
        "olivia" "v1" exC8).1 "v1" = some "publish_failed" ∧
    videoPublishError (serverPublishVideo (fun _ => Except.error "quota")
        "olivia" "v1" exC8).1 "v1" = some (some "quota") ∧
    (serverPublishVideo (fun _ => Except.error "quota")
        "olivia" "v1" exC8).2 = Except.error ErrKind.internal ∧
    videoStatus (apiPublishVideo (fun _ => Except.error "quota")
        "olivia" "v1" exC8).1 "v1" = some "failed" ∧
    videoPublishError (apiPublishVideo (fun _ => Except.error "quota")
        "olivia" "v1" exC8).1 "v1" = some (some "quota") ∧
    videoStatus (serverReviewVideo (fun _ => Except.error "quota")
        "olivia" "v1" "approved" "n" exC8).1 "v1" = some "publish_failed" ∧
    videoUploadStatus (serverReviewVideo (fun _ => Except.error "quota")
        "olivia" "v1" "approved" "n" exC8).1 "v1" = some (some "failed") :=
  c8_amended (fun _ => Except.error "quota") "olivia" "v1" "n" "quota" exC8
    exC8v1 exC8a exC8r exC8r rfl rfl rfl rfl rfl rfl rfl rfl rfl rfl rfl

/-! ## C9: sentinel upsert idempotence -/

theorem bool_and3_eq_true {a b c : Bool} (h : (a && b && c) = true) :
    a = true ∧ b = true ∧ c = true := by
  cases a <;> cases b <;> cases c <;> simp_all

theorem bool_and2_eq_true {a b : Bool} (h : (a && b) = true) :
    a = true ∧ b = true := by
  cases a <;> cases b <;> simp_all

/-- C9: both sentinel upserts are idempotent as state transformers, and each,
run twice in sequence from a state holding no owner-role row under that
upsert's own key, leaves exactly one sentinel row under that key.  The api
auth upsert is keyed by the plain `googleId` string; the patch-script upsert
by the Mongo `_id` `ObjectId` (`user._id || user.googleId` always takes
`_id`), which the string-keyed per-account owner rows never match, so an
ordinary owner role does not suppress the script's insertion. -/
theorem c9_sentinel_upsert_twice_exactly_one (g : String) (user : User) (db : DB)
    (h1 : ∀ r ∈ db.userRoles, r.userId = IdVal.str g → r.role = "owner" →
      (r.isGlobalAdmin = false ∧ r.accountId ≠ none))
    (h2 : ∀ r ∈ db.userRoles, r.userId = IdVal.oid user.mongoId → r.role ≠ "owner") :
    apiSentinelUpsert g (apiSentinelUpsert g db) = apiSentinelUpsert g db ∧
    patchSentinelUpsert user (patchSentinelUpsert user db) = patchSentinelUpsert user db ∧
    sentinelCountAt (IdVal.str g) (apiSentinelUpsert g (apiSentinelUpsert g db)) = 1 ∧
    sentinelCountAt (IdVal.oid user.mongoId)
      (patchSentinelUpsert user (patchSentinelUpsert user db)) = 1 := by
  have hga : db.userRoles.find?
      (fun r => r.userId == IdVal.str g && r.role == "owner" && r.isGlobalAdmin) = none := by
    rw [List.find?_eq_none]
    intro r hr hcon
    rcases bool_and3_eq_true hcon with ⟨hba, hbb, hbc⟩
    have hid : r.userId = IdVal.str g := by simpa using hba
    have hro : r.role = "owner" := by simpa using hbb
    rw [(h1 r hr hid hro).1] at hbc
    simp at hbc
  have hgp : db.userRoles.find?
      (fun r => r.userId == IdVal.oid user.mongoId && r.role == "owner") = none := by
    rw [List.find?_eq_none]
    intro r hr hcon
    rcases bool_and2_eq_true hcon with ⟨hba, hbb⟩
    have hid : r.userId = IdVal.oid user.mongoId := by simpa using hba
    have hro : r.role = "owner" := by simpa using hbb
    exact h2 r hr hid hro
  have h1a : apiSentinelUpsert g db = { db with userRoles := db.userRoles ++
      [{ userId := IdVal.str g, accountId := none, role := "owner",
         isGlobalAdmin := true }] } := by
    simp [apiSentinelUpsert, hga]
  have h1p : patchSentinelUpsert user db = { db with userRoles := db.userRoles ++
      [{ userId := IdVal.oid user.mongoId, accountId := none, role := "owner",
         isGlobalAdmin := true }] } := by
    simp [patchSentinelUpsert, hgp]
  have h2a : apiSentinelUpsert g { db with userRoles := db.userRoles ++
      [{ userId := IdVal.str g, accountId := none, role := "owner",
         isGlobalAdmin := true }] } = { db with userRoles := db.userRoles ++
      [{ userId := IdVal.str g, accountId := none, role := "owner",
         isGlobalAdmin := true }] } := by
    simp [apiSentinelUpsert, List.find?_append, hga]
  have h2p : patchSentinelUpsert user { db with userRoles := db.userRoles ++
      [{ userId := IdVal.oid user.mongoId, accountId := none, role := "owner",
         isGlobalAdmin := true }] } = { db with userRoles := db.userRoles ++
      [{ userId := IdVal.oid user.mongoId, accountId := none, role := "owner",
         isGlobalAdmin := true }] } := by
    simp [patchSentinelUpsert, List.find?_append, hgp]
  have hfa : db.userRoles.filter
      (fun r => r.userId == IdVal.str g && r.role == "owner" && r.accountId.isNone)
      = [] := by
    rw [List.filter_eq_nil_iff]
    intro r hr hcon
    rcases bool_and3_eq_true hcon with ⟨hba, hbb, hbc⟩
    have hid : r.userId = IdVal.str g := by simpa using hba
    have hro : r.role = "owner" := by simpa using hbb
    have hnone : r.accountId = none := Option.isNone_iff_eq_none.mp hbc
    exact (h1 r hr hid hro).2 hnone
  have hfp : db.userRoles.filter
      (fun r => r.userId == IdVal.oid user.mongoId && r.role == "owner" &&
        r.accountId.isNone) = [] := by
    rw [List.filter_eq_nil_iff]
    intro r hr hcon
    rcases bool_and3_eq_true hcon with ⟨hba, hbb, _⟩
    have hid : r.userId = IdVal.oid user.mongoId := by simpa using hba
    have hro : r.role = "owner" := by simpa using hbb
    exact h2 r hr hid hro
  refine ⟨?_, ?_, ?_, ?_⟩
  · rw [h1a, h2a]
  · rw [h1p, h2p]
  · rw [h1a, h2a]
    simp [sentinelCountAt, List.filter_append, hfa]
  · rw [h1p, h2p]
    simp [sentinelCountAt, List.filter_append, hfp]

/-- The admin user for the C9 witness. -/
def exC9u : User :=
  { mongoId := "m1", googleId := some "g1", email := "g@x.com",
    role := "admin", authType := none }

/-- State for the C9 witness: the admin `g1` owns account `a1`, so an
ordinary per-account owner role row — keyed by the JWT string `g1` — exists,
and no sentinel exists under either key. -/
def exC9 : DB :=
  { users := [exC9u]
    accounts := [{ id := "a1", name := "A", ownerId := "g1",
                   youtubeAuthorizedBy := none, youtubeAccessToken := none,
                   youtubeRefreshToken := none, youtubeChannelId := none }]
    userRoles := [{ userId := IdVal.str "g1", accountId := some (IdVal.oid "a1"),
                    role := "owner", isGlobalAdmin := false }]
    videos := [] }

/-- Witness for `c9_sentinel_upsert_twice_exactly_one` at `exC9`: the
ordinary owner role does not block either upsert, and two runs of each leave
exactly one sentinel under the respective key. -/
theorem c9_sentinel_upsert_twice_exactly_one_witness :
    apiSentinelUpsert "g1" (apiSentinelUpsert "g1" exC9)
      = apiSentinelUpsert "g1" exC9 ∧
    patchSentinelUpsert exC9u (patchSentinelUpsert exC9u exC9)
      = patchSentinelUpsert exC9u exC9 ∧
    sentinelCountAt (IdVal.str "g1")
      (apiSentinelUpsert "g1" (apiSentinelUpsert "g1" exC9)) = 1 ∧
    sentinelCountAt (IdVal.oid "m1")
      (patchSentinelUpsert exC9u (patchSentinelUpsert exC9u exC9)) = 1 :=
  c9_sentinel_upsert_twice_exactly_one "g1" exC9u exC9 (by decide) (by decide)
/-! ## C10: sentinel holders cannot list videos -/

theorem accessibleIdStrings_error (roles : List UserRole)
    (h : ∃ r ∈ roles, r.accountId = none) :
    accessibleIdStrings roles = Except.error ErrKind.internal := by
  induction roles with
  | nil => simp at h
  | cons r rs ih =>
    rcases h with ⟨r0, hr0, hacc⟩
    rcases List.mem_cons.mp hr0 with h0 | h0
    · rw [h0] at hacc
      simp [accessibleIdStrings, hacc]
    · rcases hx : r.accountId with _ | v
      · simp [accessibleIdStrings, hx]
      · cases v with
        | oid x => simp [accessibleIdStrings, hx, ih ⟨r0, h0, hacc⟩, Except.map]
        | str x => simp [accessibleIdStrings, hx, ih ⟨r0, h0, hacc⟩, Except.map]

/-- C10: a user holding a global-owner sentinel row never receives a video
list: `GET /api/videos` always takes the internal-error branch, for every
requested account filter. -/
theorem c10_sentinel_breaks_video_listing (ident : String)
    (req : Option (List String)) (db : DB)
    (h : ∃ r ∈ db.userRoles, r.userId = IdVal.str ident ∧ r.accountId = none) :
    apiListVideos ident req db = Except.error ErrKind.internal := by
  rcases h with ⟨r, hr, hid, hacc⟩
  have hmem : r ∈ db.userRoles.filter (fun w => w.userId == IdVal.str ident) :=
    List.mem_filter.mpr ⟨hr, by simp [hid]⟩
  have herr : accessibleIdStrings
      (db.userRoles.filter (fun w => w.userId == IdVal.str ident))
      = Except.error ErrKind.internal :=
    accessibleIdStrings_error _ ⟨r, hmem, hacc⟩
  simp [apiListVideos, herr]
  rfl

/-- State for the C10 witness: `g1` signed in through Google OAuth in the api
variant, so a sentinel row exists; one video exists on `g1`'s account. -/
def exC10 : DB :=
  { users := [{ mongoId := "m1", googleId := some "g1", email := "g@x.com",
                role := "admin", authType := none }]
    accounts := [{ id := "a1", name := "A", ownerId := "g1",
                   youtubeAuthorizedBy := none, youtubeAccessToken := none,
                   youtubeRefreshToken := none, youtubeChannelId := none }]
    userRoles := [{ userId := IdVal.str "g1", accountId := some (IdVal.oid "a1"),
                    role := "owner", isGlobalAdmin := false },
                  { userId := IdVal.str "g1", accountId := none, role := "owner",
                    isGlobalAdmin := true }]
    videos := [{ id := "v1", title := "T", accountId := "a1", status := "pending",
                 adminNotes := none, reviewedBy := none, youtubeUploadStatus := none,
                 publishError := none, youtubeVideoId := none, publishedBy := none }] }

/-- Witness for `c10_sentinel_breaks_video_listing` at `exC10`. -/
theorem c10_sentinel_breaks_video_listing_witness :
    apiListVideos "g1" none exC10 = Except.error ErrKind.internal :=
  c10_sentinel_breaks_video_listing "g1" none exC10 (by decide)

end VideoHub
